import Mathlib

/-!
Verification development for the `meta` collection engine (collection.go).

The file embeds the temporal-join engine shallowly: the data model and the
`Collections` builder, the `Less` comparator and the derived-quantity
functions (`Subsource`, `Code`, `Dip`, `Azimuth`) are translated from
`src/meta/collection.go`.  Machine floats (`float64` fields such as
sampling rates, dips and azimuths) are modelled as rationals, time instants
as integers, and Go slices as lists.  The supporting declarations that live
outside `collection.go` (the `Span` interval type with `Extent`/`Overlaps`,
the registry `Set` accessors, and the record structures) are modelled from
the specification, as marked on each definition.

Go's `sort.Slice` is modelled by insertion sort: a deterministic sorted
permutation agreeing with Go's contract (the output is sorted by the given
comparator); tie order in Go is implementation defined.
-/

namespace Delta

/-- Modelled from the spec: `Span` (span.go is outside src/), a closed time
interval `{Start, End}` with `Start <= End` when non-empty; instants are
modelled as integers. -/
structure Span where
  start : Int
  stop : Int
deriving DecidableEq

/-- Modelled from the spec: `Span.Overlaps`, true iff the two closed spans
share at least one instant. -/
def Span.overlaps (s t : Span) : Bool :=
  decide (max s.start t.start ≤ min s.stop t.stop)

/-- Modelled from the spec: variadic `Span.Extent`, the intersection of the
receiver with all given spans (`Start = max of starts`, `End = min of
ends`), succeeding iff the combined start does not exceed the combined
end. -/
def Span.extent (s : Span) (others : List Span) : Option Span :=
  let a := others.foldl (fun v t => max v t.start) s.start
  let b := others.foldl (fun v t => min v t.stop) s.stop
  if a ≤ b then some ⟨a, b⟩ else none

/-- Modelled from the spec: `Equipment`, the `{Make, Model, Serial}` key of a
physical instrument unit. -/
structure Equipment where
  make : String
  model : String
  serial : String
deriving DecidableEq

/-- Modelled from the spec: `Install`, an equipment unit together with its
installation span. -/
structure Install where
  equipment : Equipment
  span : Span
deriving DecidableEq

/-- Modelled from the spec: `InstalledSensor`; the Go struct embeds `Install`
(whose `Equipment` and `Span` fields are promoted), here flattened into
direct `equipment` and `span` fields, plus the installed azimuth used by
`Collection.Azimuth`. -/
structure InstalledSensor where
  station : String
  location : String
  equipment : Equipment
  span : Span
  azimuth : Rat
deriving DecidableEq

/-- Modelled from the spec: `InstalledRecorder`, a sensor bundled with a
datalogger (Path A); the Go struct embeds `InstalledSensor`, promoting its
fields. -/
structure InstalledRecorder where
  installedSensor : InstalledSensor
  dataloggerModel : String
deriving DecidableEq

/-- Modelled from the spec: `DeployedDatalogger`, `{Place, Role, Install}`;
the embedded `Install` promotes `Make`, `Model`, `Serial` and the span. -/
structure DeployedDatalogger where
  place : String
  role : String
  install : Install
deriving DecidableEq

/-- Modelled from the spec: `Connection`, linking a station/location to a
place/role with an integer channel-numbering offset. -/
structure Connection where
  station : String
  location : String
  place : String
  role : String
  number : Int
  span : Span
deriving DecidableEq

/-- Modelled from the spec: `Stream`. -/
structure Stream where
  station : String
  location : String
  band : String
  source : String
  axial : String
  samplingRate : Rat
  span : Span
deriving DecidableEq

/-- Modelled from the spec: `Component`, one measurement axis of a sensor. -/
structure Component where
  make : String
  model : String
  number : Int
  subsource : String
  dip : Rat
  azimuth : Rat
deriving DecidableEq

/-- Modelled from the spec: `Channel`, a datalogger recording channel. -/
structure Channel where
  make : String
  model : String
  number : Int
  samplingRate : Rat
deriving DecidableEq

/-- Modelled from the spec: `Gain`, amplification metadata for a subsource at
a station/location over a span. -/
structure Gain where
  station : String
  location : String
  subsource : String
  span : Span
deriving DecidableEq

/-- Modelled from the spec: `Calibration`, response metadata for an equipment
unit and component/channel number over a span. -/
structure Calibration where
  make : String
  model : String
  serial : String
  number : Int
  span : Span
deriving DecidableEq

/-- Modelled from the spec: `Site`, a `{Station, Location}` pair. -/
structure Site where
  station : String
  location : String
deriving DecidableEq

/-- Modelled from the spec: `Polarity`, `{Primary, Reversed}`; the nilable
`*Polarity` argument is modelled as `Option Polarity`. -/
structure Polarity where
  primary : Bool
  reversed : Bool
deriving DecidableEq

/-- Modelled from the spec: the registry `Set`; each accessor
(`InstalledRecorders()`, `Streams()`, ...) is modelled as a list field
preserving the registry order. -/
structure Set where
  installedRecorders : List InstalledRecorder
  installedSensors : List InstalledSensor
  deployedDataloggers : List DeployedDatalogger
  connections : List Connection
  streams : List Stream
  components : List Component
  channels : List Channel
  gains : List Gain
  calibrations : List Calibration
deriving DecidableEq

/-- Collection is the join result built by `Collections` (collection.go,
lines 10-24); the Go struct embeds its constituents, modelled here as named
fields. -/
structure Collection where
  span : Span
  stream : Stream
  channel : Channel
  component : Component
  installedSensor : InstalledSensor
  deployedDatalogger : DeployedDatalogger
  gains : List Gain
  sensorCalibrations : List Calibration
  dataloggerCalibrations : List Calibration
deriving DecidableEq

/-- Less embeds `Collection.Less` (collection.go, lines 27-54): the six-key
switch over station, location, component number, channel number, span start
and (descending) sampling rate. -/
def Collection.less (c d : Collection) : Bool :=
  if c.installedSensor.station < d.installedSensor.station then true
  else if d.installedSensor.station < c.installedSensor.station then false
  else if c.installedSensor.location < d.installedSensor.location then true
  else if d.installedSensor.location < c.installedSensor.location then false
  else if c.component.number < d.component.number then true
  else if d.component.number < c.component.number then false
  else if c.channel.number < d.channel.number then true
  else if d.channel.number < c.channel.number then false
  else if c.span.start < d.span.start then true
  else if d.span.start < c.span.start then false
  else if d.stream.samplingRate < c.stream.samplingRate then true
  else false

/-- Embeds `strings.ToLower`, character by character (the claim-relevant
values are ASCII). -/
def goLower (s : String) : String :=
  String.mk (s.data.map Char.toLower)

/-- Embeds `strings.ToUpper`, character by character (the claim-relevant
values are ASCII). -/
def goUpper (s : String) : String :=
  String.mk (s.data.map Char.toUpper)

/-- Subsource embeds `Collection.Subsource` (collection.go, lines 57-71):
the axial N/E remapping keyed on the lower-cased stream axial flag and the
upper-cased component subsource. -/
def Collection.subsource (c : Collection) : String :=
  match goLower c.stream.axial with
  | "true" | "yes" =>
    match goUpper c.component.subsource with
    | "N" => "1"
    | "E" => "2"
    | _ => c.component.subsource
  | _ => c.component.subsource

/-- Code embeds `Collection.Code` (collection.go, lines 74-76). -/
def Collection.code (c : Collection) : String :=
  c.stream.band ++ c.stream.source ++ c.subsource

/-- Embeds the Go condition `polarity != nil && polarity.Primary &&
polarity.Reversed` shared by `Dip` and `Azimuth`. -/
def polarityReversed : Option Polarity → Bool
  | some p => p.primary && p.reversed
  | none => false

/-- Dip embeds `Collection.Dip` (collection.go, lines 79-96). -/
def Collection.dip (c : Collection) (polarity : Option Polarity) : Rat :=
  if c.component.dip = 0 then 0
  else if polarityReversed polarity then -c.component.dip
  else c.component.dip

/-- Embeds the `for azimuth < 0.0 { azimuth += 360.0 }` loop of
`Collection.Azimuth`. -/
def spinNonneg (x : Rat) : Rat :=
  if h : x < 0 then spinNonneg (x + 360) else x
termination_by (⌈-(x / 360)⌉).toNat
decreasing_by
  have h1 : (0 : Rat) < -(x / 360) := by
    have hx : x / 360 < 0 := div_neg_of_neg_of_pos h (by norm_num)
    linarith [hx]
  have h2 : 0 < ⌈-(x / 360)⌉ := Int.ceil_pos.mpr h1
  have h3 : -((x + 360) / 360) = -(x / 360) - 1 := by ring
  rw [h3, Int.ceil_sub_one]
  omega

/-- Embeds Go's `math.Mod` on rationals: `x - y * trunc (x / y)`, truncation
being toward zero. -/
def goMod (x y : Rat) : Rat :=
  x - y * ((if 0 ≤ x / y then ⌊x / y⌋ else ⌈x / y⌉) : Int)

/-- Azimuth embeds `Collection.Azimuth` (collection.go, lines 99-119). -/
def Collection.azimuth (c : Collection) (polarity : Option Polarity) : Rat :=
  if c.component.dip ≠ 0 then 0
  else
    let a0 := c.installedSensor.azimuth + c.component.azimuth
    let a1 := if polarityReversed polarity then a0 + 180 else a0
    goMod (spinNonneg a1) 360

/-- Embeds Go's `sort.Slice` with comparator `less`: a sorted permutation of
the input, realised by insertion sort over the reflexive closure of
`less`. -/
def sortSlice {α : Type} (less : α → α → Bool) (l : List α) : List α :=
  @List.insertionSort α (fun a b => less b a = false)
    (fun _ _ => instDecidableEqBool _ _) l

/-- Embeds the Gain collection loop shared by both paths (collection.go,
lines 155-173 and 311-329). -/
def gainsFor (s : Set) (stream : Stream) (component : Component) (span : Span) : List Gain :=
  sortSlice (fun a b => decide (a.span.start < b.span.start))
    (s.gains.filter fun g =>
      g.station == stream.station && g.location == stream.location &&
      g.subsource == component.subsource && span.overlaps g.span)

/-- Embeds the Calibration collection loops (collection.go, lines 175-196,
210-231, 331-352 and 369-390), parameterised by the target equipment key and
number as in the source. -/
def calibrationsFor (s : Set) (make model serial : String) (number : Int)
    (span : Span) : List Calibration :=
  sortSlice (fun a b => decide (a.span.start < b.span.start))
    (s.calibrations.filter fun c =>
      c.make == make && c.model == model && c.serial == serial &&
      c.number == number && span.overlaps c.span)

/-- Embeds the Path B channel filter (collection.go, lines 354-367): make and
model must equal the deployed datalogger's, the channel number must not
exceed `component.Number + connection.Number`, and the sampling rate must
equal the stream's. -/
def connectionChannelMatch (datalogger : DeployedDatalogger)
    (connection : Connection) (component : Component) (stream : Stream)
    (channel : Channel) : Bool :=
  datalogger.install.equipment.make == channel.make &&
  datalogger.install.equipment.model == channel.model &&
  !(decide (component.number + connection.number < channel.number)) &&
  stream.samplingRate == channel.samplingRate

/-- Embeds the direct-recorder path of `Collections` (collection.go, lines
126-259): nested iteration over recorders, streams, components and channels,
with the span narrowed to the recorder/stream intersection and a synthesized
`DeployedDatalogger`. -/
def directCollections (s : Set) (site : Site) : List Collection :=
  (s.installedRecorders.filter fun r =>
      r.installedSensor.station == site.station &&
      r.installedSensor.location == site.location).flatMap fun recorder =>
  (s.streams.filter fun st =>
      st.station == site.station && st.location == site.location).flatMap fun stream =>
  match recorder.installedSensor.span.extent [stream.span] with
  | none => []
  | some span =>
    (s.components.filter fun comp =>
        recorder.installedSensor.equipment.make == comp.make &&
        recorder.installedSensor.equipment.model == comp.model).flatMap fun component =>
    let gains := gainsFor s stream component span
    let sensors := calibrationsFor s recorder.installedSensor.equipment.make
      recorder.installedSensor.equipment.model recorder.installedSensor.equipment.serial
      component.number span
    (s.channels.filter fun chan =>
        recorder.installedSensor.equipment.make == chan.make &&
        recorder.dataloggerModel == chan.model &&
        stream.samplingRate == chan.samplingRate).map fun channel =>
    { span := span
      stream := stream
      channel := channel
      component := component
      installedSensor := recorder.installedSensor
      deployedDatalogger :=
        { place := ""
          role := ""
          install :=
            { equipment :=
                { make := recorder.installedSensor.equipment.make
                  model := recorder.dataloggerModel
                  serial := recorder.installedSensor.equipment.serial }
              span := recorder.installedSensor.span } }
      gains := gains
      sensorCalibrations := sensors
      dataloggerCalibrations := calibrationsFor s recorder.installedSensor.equipment.make
        recorder.dataloggerModel recorder.installedSensor.equipment.serial
        channel.number span }

/-- Embeds the connection-routed path of `Collections` (collection.go, lines
261-409): nested iteration over connections, installed sensors, deployed
dataloggers, streams, components and channels, with staged span
narrowing. -/
def connectionCollections (s : Set) (site : Site) : List Collection :=
  (s.connections.filter fun cn =>
      cn.station == site.station && cn.location == site.location).flatMap fun connection =>
  (s.installedSensors.filter fun sn =>
      sn.station == site.station && sn.location == site.location).flatMap fun sensor =>
  (s.deployedDataloggers.filter fun d =>
      d.place == connection.place && d.role == connection.role).flatMap fun datalogger =>
  match connection.span.extent [sensor.span, datalogger.install.span] with
  | none => []
  | some span0 =>
    (s.streams.filter fun st =>
        st.station == site.station && st.location == site.location).flatMap fun stream =>
    match span0.extent [stream.span] with
    | none => []
    | some span =>
      (s.components.filter fun comp =>
          sensor.equipment.make == comp.make &&
          sensor.equipment.model == comp.model).flatMap fun component =>
      let gains := gainsFor s stream component span
      let sensors := calibrationsFor s sensor.equipment.make sensor.equipment.model
        sensor.equipment.serial component.number span
      (s.channels.filter fun chan =>
          connectionChannelMatch datalogger connection component stream chan).map fun channel =>
      { span := span
        stream := stream
        channel := channel
        component := component
        installedSensor := sensor
        deployedDatalogger := datalogger
        gains := gains
        sensorCalibrations := sensors
        dataloggerCalibrations := calibrationsFor s datalogger.install.equipment.make
          datalogger.install.equipment.model datalogger.install.equipment.serial
          channel.number span }

/-- Collections embeds `Set.Collections` (collection.go, lines 123-415): the
direct-recorder path followed by the connection-routed path, sorted by
`Collection.Less`. -/
def Set.collections (s : Set) (site : Site) : List Collection :=
  sortSlice Collection.less (directCollections s site ++ connectionCollections s site)

/-- SortKeyLt is the six-key lexicographic strict order that
`Collection.less` decides. -/
def sortKeyLt (c d : Collection) : Prop :=
  c.installedSensor.station < d.installedSensor.station ∨
  (c.installedSensor.station = d.installedSensor.station ∧
   (c.installedSensor.location < d.installedSensor.location ∨
    (c.installedSensor.location = d.installedSensor.location ∧
     (c.component.number < d.component.number ∨
      (c.component.number = d.component.number ∧
       (c.channel.number < d.channel.number ∨
        (c.channel.number = d.channel.number ∧
         (c.span.start < d.span.start ∨
          (c.span.start = d.span.start ∧
           d.stream.samplingRate < c.stream.samplingRate)))))))))

theorem ifStep {α : Type} [LinearOrder α] (a b : α) (P : Prop) (r : Bool)
    {da : Decidable (a < b)} {db : Decidable (b < a)}
    (hr : r = true ↔ P) :
    ((@ite Bool (a < b) da true (@ite Bool (b < a) db false r)) = true) ↔
      (a < b ∨ (a = b ∧ P)) := by
  rcases lt_trichotomy a b with h | h | h
  · simp [h]
  · subst h
    simp [lt_irrefl, hr]
  · simp [lt_asymm h, h, (ne_of_gt h)]

theorem stepAsymm {α : Type} [LinearOrder α] {a b : α} {P Q : Prop}
    (hPQ : P → Q → False) :
    (a < b ∨ (a = b ∧ P)) → (b < a ∨ (b = a ∧ Q)) → False := by
  rintro (h1 | ⟨rfl, hp⟩) (h2 | ⟨heq, hq⟩)
  · exact lt_asymm h1 h2
  · exact absurd h1 (heq ▸ lt_irrefl _)
  · exact lt_irrefl _ h2
  · exact hPQ hp hq

theorem stepNegtrans {α : Type} [LinearOrder α] {a b c : α} {P Q R : Prop}
    (hPQR : P → Q ∨ R) :
    (a < c ∨ (a = c ∧ P)) →
      (a < b ∨ (a = b ∧ Q)) ∨ (b < c ∨ (b = c ∧ R)) := by
  intro h1
  rcases lt_trichotomy a b with hb | hb | hb
  · exact Or.inl (Or.inl hb)
  · subst hb
    rcases h1 with h1 | ⟨heq, hp⟩
    · exact Or.inr (Or.inl h1)
    · rcases hPQR hp with hq | hr
      · exact Or.inl (Or.inr ⟨rfl, hq⟩)
      · exact Or.inr (Or.inr ⟨heq, hr⟩)
  · rcases h1 with h1 | ⟨heq, _⟩
    · exact Or.inr (Or.inl (lt_trans hb h1))
    · exact Or.inr (Or.inl (heq ▸ hb))

theorem less_iff (c d : Collection) :
    Collection.less c d = true ↔ sortKeyLt c d := by
  unfold Collection.less sortKeyLt
  apply ifStep
  apply ifStep
  apply ifStep
  apply ifStep
  apply ifStep
  split_ifs with h <;> simp [h]

theorem less_asymm (c d : Collection) :
    Collection.less c d = true → Collection.less d c = true → False := by
  rw [less_iff, less_iff]
  unfold sortKeyLt
  exact stepAsymm (stepAsymm (stepAsymm (stepAsymm (stepAsymm
    (fun h1 h2 => lt_asymm h1 h2)))))

theorem less_negtrans (c d e : Collection) :
    Collection.less c e = true →
      Collection.less c d = true ∨ Collection.less d e = true := by
  rw [less_iff, less_iff, less_iff]
  unfold sortKeyLt
  exact stepNegtrans (stepNegtrans (stepNegtrans (stepNegtrans (stepNegtrans
    (fun h1 => by
      rcases lt_or_le d.stream.samplingRate c.stream.samplingRate with h | h
      · exact Or.inl h
      · exact Or.inr (lt_of_lt_of_le h1 h))))))

theorem mem_sortSlice {α : Type} (less : α → α → Bool) (l : List α) (a : α) :
    a ∈ sortSlice less l ↔ a ∈ l :=
  @List.mem_insertionSort α (fun a b => less b a = false)
    (fun _ _ => instDecidableEqBool _ _) l a

theorem sorted_sortSlice {α : Type} (less : α → α → Bool)
    (hasymm : ∀ a b, less a b = true → less b a = true → False)
    (hnegtrans : ∀ a b c, less a c = true → less a b = true ∨ less b c = true)
    (l : List α) :
    (sortSlice less l).Sorted (fun a b => less b a = false) := by
  have htot : IsTotal α (fun a b => less b a = false) := by
    constructor
    intro a b
    cases hba : less b a with
    | false => exact Or.inl rfl
    | true =>
      cases hab : less a b with
      | false => exact Or.inr rfl
      | true => exact absurd (hasymm a b hab hba) (by simp)
  have htr : IsTrans α (fun a b => less b a = false) := by
    constructor
    intro a b c hab hbc
    cases hca : less c a with
    | false => rfl
    | true =>
      rcases hnegtrans c b a hca with h | h
      · rw [hbc] at h
        exact absurd h (by simp)
      · rw [hab] at h
        exact absurd h (by simp)
  exact @List.sorted_insertionSort α (fun a b => less b a = false)
    (fun _ _ => instDecidableEqBool _ _) htot htr l

theorem extent_some_le {s : Span} {others : List Span} {sp : Span}
    (h : Span.extent s others = some sp) : sp.start ≤ sp.stop := by
  simp only [Span.extent] at h
  split at h
  · cases h
    assumption
  · cases h

theorem mem_directCollections {s : Set} {site : Site} {c : Collection}
    (hc : c ∈ directCollections s site) :
    ∃ recorder ∈ s.installedRecorders, ∃ stream ∈ s.streams,
      c.installedSensor = recorder.installedSensor ∧
      c.stream = stream ∧
      c.deployedDatalogger =
        { place := ""
          role := ""
          install :=
            { equipment :=
                { make := recorder.installedSensor.equipment.make
                  model := recorder.dataloggerModel
                  serial := recorder.installedSensor.equipment.serial }
              span := recorder.installedSensor.span } } ∧
      recorder.installedSensor.span.extent [stream.span] = some c.span := by
  unfold directCollections at hc
  rw [List.mem_flatMap] at hc
  obtain ⟨recorder, hrec, hc⟩ := hc
  rw [List.mem_filter] at hrec
  rw [List.mem_flatMap] at hc
  obtain ⟨stream, hst, hc⟩ := hc
  rw [List.mem_filter] at hst
  split at hc
  · exact absurd hc (List.not_mem_nil c)
  · rename_i span hext
    rw [List.mem_flatMap] at hc
    obtain ⟨component, _, hc⟩ := hc
    rw [List.mem_map] at hc
    obtain ⟨channel, _, rfl⟩ := hc
    exact ⟨recorder, hrec.1, stream, hst.1, rfl, rfl, rfl, hext⟩

theorem mem_connectionCollections {s : Set} {site : Site} {c : Collection}
    (hc : c ∈ connectionCollections s site) :
    ∃ connection ∈ s.connections, ∃ sensor ∈ s.installedSensors,
    ∃ datalogger ∈ s.deployedDataloggers, ∃ stream ∈ s.streams, ∃ span0,
      connection.span.extent [sensor.span, datalogger.install.span] = some span0 ∧
      span0.extent [stream.span] = some c.span ∧
      c.installedSensor = sensor ∧
      c.deployedDatalogger = datalogger ∧
      c.stream = stream := by
  unfold connectionCollections at hc
  rw [List.mem_flatMap] at hc
  obtain ⟨connection, hcn, hc⟩ := hc
  rw [List.mem_filter] at hcn
  rw [List.mem_flatMap] at hc
  obtain ⟨sensor, hsn, hc⟩ := hc
  rw [List.mem_filter] at hsn
  rw [List.mem_flatMap] at hc
  obtain ⟨datalogger, hdl, hc⟩ := hc
  rw [List.mem_filter] at hdl
  split at hc
  · exact absurd hc (List.not_mem_nil c)
  · rename_i span0 hext0
    rw [List.mem_flatMap] at hc
    obtain ⟨stream, hst, hc⟩ := hc
    rw [List.mem_filter] at hst
    split at hc
    · exact absurd hc (List.not_mem_nil c)
    · rename_i span hext
      rw [List.mem_flatMap] at hc
      obtain ⟨component, _, hc⟩ := hc
      rw [List.mem_map] at hc
      obtain ⟨channel, _, rfl⟩ := hc
      exact ⟨connection, hcn.1, sensor, hsn.1, datalogger, hdl.1, stream, hst.1,
        span0, hext0, hext, rfl, rfl, rfl⟩

/-- Example data realising the spec's Path A basic-join scenario. -/
def exEquipmentA : Equipment := ⟨"X", "Y", "1"⟩

def exSensorA : InstalledSensor := ⟨"ABC", "01", exEquipmentA, ⟨2000, 2010⟩, 0⟩

def exRecorderA : InstalledRecorder := ⟨exSensorA, "Z"⟩

def exStreamA : Stream := ⟨"ABC", "01", "H", "H", "false", 100, ⟨2001, 2009⟩⟩

def exComponentA : Component := ⟨"X", "Y", 1, "Z", 0, 90⟩

def exChannelA : Channel := ⟨"X", "Z", 1, 100⟩

def exSiteA : Site := ⟨"ABC", "01"⟩

def exSetA : Set :=
  ⟨[exRecorderA], [], [], [], [exStreamA], [exComponentA], [exChannelA], [], []⟩

def exCollectionA : Collection :=
  { span := ⟨2001, 2009⟩
    stream := exStreamA
    channel := exChannelA
    component := exComponentA
    installedSensor := exSensorA
    deployedDatalogger := ⟨"", "", ⟨⟨"X", "Z", "1"⟩, ⟨2000, 2010⟩⟩⟩
    gains := []
    sensorCalibrations := []
    dataloggerCalibrations := [] }

/-- Example data realising the spec's no-overlap scenario: the recorder span
`[1990, 1995]` misses the stream span `[2001, 2009]`. -/
def exSetNoOverlap : Set :=
  ⟨[⟨⟨"ABC", "01", exEquipmentA, ⟨1990, 1995⟩, 0⟩, "Z"⟩], [], [], [],
    [exStreamA], [exComponentA], [exChannelA], [], []⟩

/-- Example data realising the spec's Path B offset-rule scenario: connection
number 1, component number 2, channels numbered 3 and 4. -/
def exConnectionB : Connection := ⟨"ABC", "01", "P", "R", 1, ⟨2000, 2010⟩⟩

def exSensorB : InstalledSensor := ⟨"ABC", "01", ⟨"SM", "SV", "5"⟩, ⟨2000, 2010⟩, 0⟩

def exDataloggerB : DeployedDatalogger := ⟨"P", "R", ⟨⟨"DM", "DV", "7"⟩, ⟨2000, 2010⟩⟩⟩

def exStreamB : Stream := ⟨"ABC", "01", "H", "H", "false", 200, ⟨2000, 2010⟩⟩

def exComponentB : Component := ⟨"SM", "SV", 2, "Z", 0, 0⟩

def exSetB : Set :=
  ⟨[], [exSensorB], [exDataloggerB], [exConnectionB], [exStreamB], [exComponentB],
    [⟨"DM", "DV", 3, 200⟩, ⟨"DM", "DV", 4, 200⟩], [], []⟩

/-- Example data for a connection-routed Collection whose connection and
datalogger use empty place and role strings. -/
def exConnectionC : Connection := ⟨"ABC", "01", "", "", 0, ⟨2000, 2010⟩⟩

def exDataloggerC : DeployedDatalogger := ⟨"", "", ⟨⟨"DM", "DV", "7"⟩, ⟨2000, 2010⟩⟩⟩

def exChannelC : Channel := ⟨"DM", "DV", 1, 200⟩

def exSetC : Set :=
  ⟨[], [exSensorB], [exDataloggerC], [exConnectionC], [exStreamB], [exComponentB],
    [exChannelC], [], []⟩

def exCollectionC : Collection :=
  { span := ⟨2000, 2010⟩
    stream := exStreamB
    channel := exChannelC
    component := exComponentB
    installedSensor := exSensorB
    deployedDatalogger := exDataloggerC
    gains := []
    sensorCalibrations := []
    dataloggerCalibrations := [] }

/-- C1: for every Collection returned by `collections`, the span is the
non-empty intersection of the contributing records' spans — recorder and
stream spans on the direct-recorder path; connection, installed-sensor,
deployed-datalogger and stream spans on the connection path — so no
Collection arises from records whose spans do not all overlap; and the
no-overlap scenario (recorder span `[1990, 1995]` against stream span
`[2001, 2009]`) produces zero Collections. -/
theorem claim1_span_invariant :
    (∀ (s : Set) (site : Site) (c : Collection), c ∈ Set.collections s site →
      c.span.start ≤ c.span.stop ∧
      ((∃ recorder ∈ s.installedRecorders, ∃ stream ∈ s.streams,
          c.installedSensor = recorder.installedSensor ∧ c.stream = stream ∧
          recorder.installedSensor.span.extent [stream.span] = some c.span) ∨
       (∃ connection ∈ s.connections, ∃ sensor ∈ s.installedSensors,
        ∃ datalogger ∈ s.deployedDataloggers, ∃ stream ∈ s.streams, ∃ span0,
          connection.span.extent [sensor.span, datalogger.install.span] = some span0 ∧
          span0.extent [stream.span] = some c.span ∧
          c.installedSensor = sensor ∧ c.deployedDatalogger = datalogger ∧
          c.stream = stream))) ∧
    Set.collections exSetNoOverlap exSiteA = [] := by
  constructor
  · intro s site c hc
    unfold Set.collections at hc
    rw [mem_sortSlice, List.mem_append] at hc
    rcases hc with h | h
    · obtain ⟨recorder, h1, stream, h2, h3, h4, _, h6⟩ := mem_directCollections h
      exact ⟨extent_some_le h6, Or.inl ⟨recorder, h1, stream, h2, h3, h4, h6⟩⟩
    · obtain ⟨connection, h1, sensor, h2, datalogger, h3, stream, h4, span0,
        h5, h6, h7, h8, h9⟩ := mem_connectionCollections h
      exact ⟨extent_some_le h6, Or.inr ⟨connection, h1, sensor, h2, datalogger,
        h3, stream, h4, span0, h5, h6, h7, h8, h9⟩⟩
  · decide

/-- Witness for C1 at the Path A basic-join scenario. -/
theorem claim1_span_invariant_witness :
    exCollectionA.span.start ≤ exCollectionA.span.stop :=
  (claim1_span_invariant.1 exSetA exSiteA exCollectionA (by decide)).1

/-- C2: on the connection-routed path a Channel passes the join filter iff
its make and model equal the deployed datalogger's, its sampling rate equals
the stream's, and `component.Number + connection.Number >= channel.Number`;
in the offset-rule scenario (connection number 1, component number 2) the
channel numbered 3 is included and the channel numbered 4 is excluded. -/
theorem claim2_channel_match :
    (∀ (datalogger : DeployedDatalogger) (connection : Connection)
        (component : Component) (stream : Stream) (channel : Channel),
      connectionChannelMatch datalogger connection component stream channel = true ↔
        (channel.make = datalogger.install.equipment.make ∧
         channel.model = datalogger.install.equipment.model ∧
         channel.samplingRate = stream.samplingRate ∧
         component.number + connection.number ≥ channel.number)) ∧
    (Set.collections exSetB exSiteA).map (fun c => c.channel.number) = [3] := by
  constructor
  · intro datalogger connection component stream channel
    unfold connectionChannelMatch
    simp only [Bool.and_eq_true, beq_iff_eq, Bool.not_eq_true',
      decide_eq_false_iff_not, not_lt]
    constructor
    · rintro ⟨⟨⟨h1, h2⟩, h3⟩, h4⟩
      exact ⟨h1.symm, h2.symm, h4.symm, h3⟩
    · rintro ⟨h1, h2, h3, h4⟩
      exact ⟨⟨⟨h1.symm, h2.symm⟩, h4⟩, h3.symm⟩
  · decide

/-- C5: every Collection from the direct-recorder path carries the recorder's
sensor as its installed sensor and a synthesized deployed datalogger whose
equipment is the recorder sensor's make, the recorder's datalogger model and
the recorder sensor's serial, and whose span is the recorder's own span. -/
theorem claim5_direct_synthesized (s : Set) (site : Site) (c : Collection)
    (hc : c ∈ directCollections s site) :
    ∃ recorder ∈ s.installedRecorders,
      c.installedSensor = recorder.installedSensor ∧
      c.deployedDatalogger.install.equipment =
        ⟨recorder.installedSensor.equipment.make, recorder.dataloggerModel,
         recorder.installedSensor.equipment.serial⟩ ∧
      c.deployedDatalogger.install.span = recorder.installedSensor.span := by
  obtain ⟨recorder, h1, stream, _, h3, _, h5, _⟩ := mem_directCollections hc
  exact ⟨recorder, h1, h3, by rw [h5], by rw [h5]⟩

/-- Witness for C5 at the Path A basic-join scenario. -/
theorem claim5_direct_synthesized_witness :
    ∃ recorder ∈ exSetA.installedRecorders,
      exCollectionA.installedSensor = recorder.installedSensor ∧
      exCollectionA.deployedDatalogger.install.equipment =
        ⟨recorder.installedSensor.equipment.make, recorder.dataloggerModel,
         recorder.installedSensor.equipment.serial⟩ ∧
      exCollectionA.deployedDatalogger.install.span = recorder.installedSensor.span :=
  claim5_direct_synthesized exSetA exSiteA exCollectionA (by decide)

/-- C10 (amended): every Collection from the direct-recorder path leaves the
synthesized deployed datalogger's place and role as empty strings. -/
theorem claim10_direct_place_role_empty (s : Set) (site : Site) (c : Collection)
    (hc : c ∈ directCollections s site) :
    c.deployedDatalogger.place = "" ∧ c.deployedDatalogger.role = "" := by
  obtain ⟨recorder, _, stream, _, _, _, h5, _⟩ := mem_directCollections hc
  rw [h5]
  exact ⟨rfl, rfl⟩

/-- Witness for the amended C10 at the Path A basic-join scenario. -/
theorem claim10_direct_place_role_empty_witness :
    exCollectionA.deployedDatalogger.place = "" ∧
    exCollectionA.deployedDatalogger.role = "" :=
  claim10_direct_place_role_empty exSetA exSiteA exCollectionA (by decide)

/-- C10 counterexample: empty place and role do not distinguish direct-path
Collections — a connection whose place and role are empty strings yields a
connection-routed Collection whose deployed datalogger also has empty place
and role, while the direct path yields nothing. -/
theorem claim10_counterexample :
    Set.collections exSetC exSiteA = [exCollectionC] ∧
    directCollections exSetC exSiteA = [] ∧
    exCollectionC.deployedDatalogger.place = "" ∧
    exCollectionC.deployedDatalogger.role = "" :=
  ⟨by decide, by decide, rfl, rfl⟩

/-- C3: the output of `collections` is sorted by the six-key comparator — for
every pair of adjacent elements, the later one is not strictly less than the
earlier one under `Collection.less`. -/
theorem claim3_collections_sorted (s : Set) (site : Site) :
    (Set.collections s site).Chain' (fun a b => Collection.less b a = false) := by
  have h := sorted_sortSlice Collection.less less_asymm less_negtrans
    (directCollections s site ++ connectionCollections s site)
  exact h.chain'

/-- Characterization of `Collection.subsource` by the lower-cased axial flag
and the upper-cased component subsource. -/
theorem subsource_eq (c : Collection) :
    c.subsource =
      if goLower c.stream.axial = "true" ∨ goLower c.stream.axial = "yes" then
        (if goUpper c.component.subsource = "N" then "1"
         else if goUpper c.component.subsource = "E" then "2"
         else c.component.subsource)
      else c.component.subsource := by
  unfold Collection.subsource
  split
  · split <;> simp_all
  · split <;> simp_all
  · rename_i h1 h2
    rw [if_neg]
    rintro (h | h)
    · exact h1 h
    · exact h2 h

/-- Example Collection with axial stream flag "true" and lower-case component
subsource "n". -/
def exCollectionN : Collection :=
  { span := ⟨0, 1⟩
    stream := ⟨"ABC", "01", "H", "H", "true", 100, ⟨0, 1⟩⟩
    channel := exChannelA
    component := ⟨"X", "Y", 1, "n", 0, 0⟩
    installedSensor := exSensorA
    deployedDatalogger := ⟨"", "", ⟨exEquipmentA, ⟨0, 1⟩⟩⟩
    gains := []
    sensorCalibrations := []
    dataloggerCalibrations := [] }

/-- C6 counterexample: with `Stream.Axial = "true"` and `Component.Subsource
= "n"` — a value other than "N" and "E" — `Subsource` returns "1" rather
than the subsource unchanged, because the code upper-cases the subsource
before matching. -/
theorem claim6_counterexample :
    exCollectionN.stream.axial = "true" ∧
    exCollectionN.component.subsource ≠ "N" ∧
    exCollectionN.component.subsource ≠ "E" ∧
    Collection.subsource exCollectionN = "1" ∧
    Collection.subsource exCollectionN ≠ exCollectionN.component.subsource :=
  ⟨rfl, by decide, by decide, by decide, by decide⟩

/-- C6 (amended): when the lower-cased axial flag is "true" or "yes",
`Subsource` maps a subsource whose upper-casing is "N" to "1" and one whose
upper-casing is "E" to "2" and passes any other subsource through unchanged;
when the axial flag is not truthy the subsource always passes through
unchanged. -/
theorem claim6_subsource (c : Collection) :
    ((goLower c.stream.axial = "true" ∨ goLower c.stream.axial = "yes") →
      (goUpper c.component.subsource = "N" → c.subsource = "1") ∧
      (goUpper c.component.subsource = "E" → c.subsource = "2") ∧
      (goUpper c.component.subsource ≠ "N" → goUpper c.component.subsource ≠ "E" →
        c.subsource = c.component.subsource)) ∧
    ((goLower c.stream.axial ≠ "true" ∧ goLower c.stream.axial ≠ "yes") →
      c.subsource = c.component.subsource) := by
  rw [subsource_eq]
  constructor
  · intro haxial
    rw [if_pos haxial]
    refine ⟨fun hn => ?_, fun he => ?_, fun hn he => ?_⟩
    · rw [if_pos hn]
    · have hne : goUpper c.component.subsource ≠ "N" := by
        rw [he]
        decide
      rw [if_neg hne, if_pos he]
    · rw [if_neg hn, if_neg he]
  · intro ⟨h1, h2⟩
    rw [if_neg]
    rintro (h | h)
    · exact h1 h
    · exact h2 h

/-- Witness for the amended C6: the axial "true" / subsource "n" example maps
to "1". -/
theorem claim6_subsource_witness : Collection.subsource exCollectionN = "1" :=
  ((claim6_subsource exCollectionN).1 (Or.inl (by decide))).1 (by decide)

theorem spinNonneg_nonneg_aux :
    ∀ (n : Nat) (x : Rat), (⌈-(x / 360)⌉).toNat ≤ n → 0 ≤ spinNonneg x := by
  intro n
  induction n with
  | zero =>
    intro x hx
    have h0 : ¬x < 0 := by
      intro hneg
      have h1 : (0 : Rat) < -(x / 360) := by
        have hq : x / 360 < 0 := div_neg_of_neg_of_pos hneg (by norm_num)
        linarith [hq]
      have h2 : 0 < ⌈-(x / 360)⌉ := Int.ceil_pos.mpr h1
      omega
    unfold spinNonneg
    rw [dif_neg h0]
    exact le_of_not_lt h0
  | succ n ih =>
    intro x hx
    by_cases hneg : x < 0
    · unfold spinNonneg
      rw [dif_pos hneg]
      apply ih
      have h1 : (0 : Rat) < -(x / 360) := by
        have hq : x / 360 < 0 := div_neg_of_neg_of_pos hneg (by norm_num)
        linarith [hq]
      have h2 : 0 < ⌈-(x / 360)⌉ := Int.ceil_pos.mpr h1
      have h3 : -((x + 360) / 360) = -(x / 360) - 1 := by ring
      have h4 : ⌈-((x + 360) / 360)⌉ = ⌈-(x / 360)⌉ - 1 := by
        rw [h3, Int.ceil_sub_one]
      omega
    · unfold spinNonneg
      rw [dif_neg hneg]
      exact le_of_not_lt hneg

theorem spinNonneg_nonneg (x : Rat) : 0 ≤ spinNonneg x :=
  spinNonneg_nonneg_aux (⌈-(x / 360)⌉).toNat x le_rfl

theorem goMod_nonneg_lt (x : Rat) (hx : 0 ≤ x) :
    0 ≤ goMod x 360 ∧ goMod x 360 < 360 := by
  unfold goMod
  have hq : 0 ≤ x / 360 := by positivity
  rw [if_pos hq]
  have hfr : x - 360 * ((⌊x / 360⌋ : Int) : Rat) = 360 * Int.fract (x / 360) := by
    have hf : Int.fract (x / 360) = x / 360 - ⌊x / 360⌋ := (Int.self_sub_floor _).symm
    rw [hf]
    ring
  rw [hfr]
  constructor
  · exact mul_nonneg (by norm_num) (Int.fract_nonneg _)
  · have h1 := Int.fract_lt_one (x / 360)
    linarith [h1]

/-- C7: for every Collection and polarity argument, `Azimuth` returns a value
in the half-open interval `[0, 360)`. -/
theorem claim7_azimuth_range (c : Collection) (polarity : Option Polarity) :
    0 ≤ c.azimuth polarity ∧ c.azimuth polarity < 360 := by
  unfold Collection.azimuth
  split
  · exact ⟨le_refl 0, by norm_num⟩
  · exact goMod_nonneg_lt _ (spinNonneg_nonneg _)

/-- Example Collection with component dip 45. -/
def exCollectionDip45 : Collection :=
  { exCollectionA with component := ⟨"X", "Y", 1, "Z", 45, 90⟩ }

/-- C8: `Dip` returns 0 when the component dip is 0, and otherwise the
component dip, sign-flipped exactly when the polarity is present with both
primary and reversed set; in particular dip 45 with a primary reversed
polarity yields -45. -/
theorem claim8_dip (c : Collection) (polarity : Option Polarity) :
    (c.component.dip = 0 → c.dip polarity = 0) ∧
    (c.component.dip ≠ 0 →
      c.dip polarity =
        if polarityReversed polarity then -c.component.dip else c.component.dip) ∧
    Collection.dip exCollectionDip45 (some ⟨true, true⟩) = -45 := by
  refine ⟨fun h => ?_, fun h => ?_, by decide⟩
  · unfold Collection.dip
    rw [if_pos h]
  · unfold Collection.dip
    rw [if_neg h]

/-- Witness for C8: the reversed-polarity scenario with dip 45 returns
-45. -/
theorem claim8_dip_witness :
    Collection.dip exCollectionDip45 (some ⟨true, true⟩) = -45 := by
  have h := (claim8_dip exCollectionDip45 (some ⟨true, true⟩)).2.1 (by decide)
  simpa [polarityReversed, exCollectionDip45] using h

/-- C9: `Dip` and `Azimuth` are never both non-zero — when the component dip
is 0 the dip result is forced to 0, otherwise the azimuth result is forced
to 0. -/
theorem claim9_dip_azimuth_exclusive (c : Collection) (polarity : Option Polarity) :
    c.dip polarity = 0 ∨ c.azimuth polarity = 0 := by
  by_cases h : c.component.dip = 0
  · left
    unfold Collection.dip
    rw [if_pos h]
  · right
    unfold Collection.azimuth
    rw [if_pos h]

end Delta
